import Mathlib

/-!
Verification development for the payeng transaction engine.

The definitions below are a shallow embedding of the Rust sources
`src/accounts.rs` and `src/input.rs`: the account state machine with its
dispute/resolve/chargeback protocol, the per-process account storage with the
global duplicate-transaction-id guard, and the structural validator on input
records.  Rust `BTreeMap` and `HashSet` fields are embedded as association
lists and lists with replace-on-insert and membership operations; `Result`
becomes the two-constructor `TxResult`; in-place mutation becomes explicit
state passing, with every early `return` translated to returning the state as
it stands at that point.
-/

namespace Payeng

/-- Modelled from the spec: the repository's `FixedPoint` type lives in
`src/simple_fp.rs`, which is not among the provided sources.  Per the spec it
is an exact scaled-integer decimal with exactly 4 fractional digits,
supporting addition, subtraction, comparison and negative values.  A value is
represented here as the integer holding the amount times 10000, with the
exact integer operations. -/
abbrev FixedPoint := Int

/-- Transaction kinds (input.rs, TransactionType). -/
inductive TransactionType where
  | Deposit
  | Withdrawal
  | Dispute
  | Resolve
  | Chargeback
deriving DecidableEq

/-- An input record (input.rs, Input).  The source stores the amount as an
optional f64 and converts it with FixedPoint.from_f64; since amounts are
decimals with at most 4 fractional digits (spec section 6), the converted
scaled-integer value is carried directly. -/
structure Input where
  type : TransactionType
  client : Nat
  tx : Nat
  amount : Option FixedPoint
deriving DecidableEq

/-- Structural validity of a record (input.rs, Input::valid): deposits and
withdrawals need a strictly positive amount, the dispute-protocol kinds need
an absent amount. -/
def Input.valid (i : Input) : Bool :=
  match i.type with
  | TransactionType.Deposit | TransactionType.Withdrawal =>
      match i.amount with
      | some amount => if amount > 0 then true else false
      | none => false
  | TransactionType.Dispute | TransactionType.Resolve | TransactionType.Chargeback =>
      i.amount.isNone

/-- Amount accessor (input.rs, Input::amount_as_fp). -/
def Input.amount_as_fp (i : Input) : Option FixedPoint :=
  i.amount

/-- Error taxonomy (accounts.rs, TransactionError). -/
inductive TransactionError where
  | MalformedInput
  | NotEnoughAvailableFunds
  | MissingTxId
  | DuplicateTxId
  | AccountLocked
  | InvalidTx
  | InvalidTxForDispute
  | MissingDisputeTx
  | DisputeAlreadyExist
  | DisputeAlreadyHandled
deriving DecidableEq

/-- Result of one transaction, Rust `Result<(), TransactionError>`. -/
inductive TxResult where
  | ok : TxResult
  | err : TransactionError → TxResult
deriving DecidableEq

/-- Dispute lifecycle states (accounts.rs, DisputeState). -/
inductive DisputeState where
  | Started
  | Reimbursed
  | Resolved
deriving DecidableEq

/-- DisputeState::new returns Started. -/
def DisputeState.new : DisputeState :=
  DisputeState.Started

/-- Lookup in an association list embedding a BTreeMap keyed by Nat. -/
def lookupMap {α : Type} : List (Nat × α) → Nat → Option α
  | [], _ => none
  | (k, v) :: rest, key => if k = key then some v else lookupMap rest key

/-- Key membership in an association list (BTreeMap::contains_key). -/
def containsMap {α : Type} (m : List (Nat × α)) (key : Nat) : Bool :=
  (lookupMap m key).isSome

/-- Replace-on-insert into an association list (BTreeMap::insert, and the
write through a BTreeMap::get_mut reference). -/
def insertMap {α : Type} : List (Nat × α) → Nat → α → List (Nat × α)
  | [], key, v => [(key, v)]
  | (k, w) :: rest, key, v =>
      if k = key then (key, v) :: rest else (k, w) :: insertMap rest key v

/-- Membership in a list embedding a HashSet of Nat (HashSet::contains). -/
def containsSet (s : List Nat) (x : Nat) : Bool :=
  s.contains x

/-- Idempotent insertion into the set (HashSet::insert). -/
def insertSet (s : List Nat) (x : Nat) : List Nat :=
  if s.contains x then s else x :: s

/-- Per-client account state (accounts.rs, Account). -/
structure Account where
  available : FixedPoint
  held : FixedPoint
  locked : Bool
  tx_history : List (Nat × Input)
  disputes : List (Nat × DisputeState)
deriving DecidableEq

/-- Account::new — empty account. -/
def Account.new : Account :=
  { available := 0
    held := 0
    locked := false
    tx_history := []
    disputes := [] }

/-- Account::total. -/
def Account.total (a : Account) : FixedPoint :=
  a.held + a.available

/-- Account::contains_txid. -/
def Account.contains_txid (a : Account) (txid : Nat) : Bool :=
  containsMap a.tx_history txid

/-- Account::lock. -/
def Account.lock (a : Account) : Account :=
  { a with locked := true }

/-- Account::deposit — available += amount. -/
def Account.deposit (a : Account) (amount : FixedPoint) : Account :=
  { a with available := a.available + amount }

/-- Account::withdraw: rejects when locked, then succeeds exactly when
available >= amount, subtracting it from available. -/
def Account.withdraw (self : Account) (amount : FixedPoint) : Account × TxResult :=
  if self.locked then
    (self, TxResult.err TransactionError.AccountLocked)
  else if self.available ≥ amount then
    ({ self with available := self.available - amount }, TxResult.ok)
  else
    (self, TxResult.err TransactionError.NotEnoughAvailableFunds)

/-- Account::chargeback: requires the tx in history and a dispute entry; when
the dispute is Started, subtracts the amount from held under the source's
guard `self.held <= amount`, marks the dispute Reimbursed, locks the account
and returns Ok; otherwise DisputeAlreadyHandled. -/
def Account.chargeback (self : Account) (tx : Nat) : Account × TxResult :=
  match lookupMap self.tx_history tx with
  | none => (self, TxResult.err TransactionError.MissingTxId)
  | some input =>
      match lookupMap self.disputes tx with
      | none => (self, TxResult.err TransactionError.MissingDisputeTx)
      | some dispute =>
          if dispute = DisputeState.Started then
            let s1 :=
              match input.amount_as_fp with
              | some amount =>
                  if self.held ≤ amount then
                    { self with held := self.held - amount }
                  else
                    self
              | none => self
            let s2 := { s1 with disputes := insertMap s1.disputes tx DisputeState.Reimbursed }
            (s2.lock, TxResult.ok)
          else
            (self, TxResult.err TransactionError.DisputeAlreadyHandled)

/-- Account::resolve: requires the tx in history and a dispute entry; when the
dispute is Started and the stored record has an amount, unconditionally sets
held -= amount and available += amount (a negative resulting held is only
reported on stderr) and marks the dispute Resolved. -/
def Account.resolve (self : Account) (tx : Nat) : Account × TxResult :=
  match lookupMap self.tx_history tx with
  | none => (self, TxResult.err TransactionError.MissingTxId)
  | some input =>
      match lookupMap self.disputes tx with
      | none => (self, TxResult.err TransactionError.MissingDisputeTx)
      | some dispute =>
          if dispute = DisputeState.Started then
            match input.amount_as_fp with
            | some amount =>
                let heldres := self.held - amount
                ({ self with
                    held := heldres
                    available := self.available + amount
                    disputes := insertMap self.disputes tx DisputeState.Resolved },
                  TxResult.ok)
            | none => (self, TxResult.err TransactionError.InvalidTx)
          else
            (self, TxResult.err TransactionError.DisputeAlreadyHandled)

/-- Account::dispute: requires the tx in history and a Deposit record with no
existing dispute entry; then inserts a Started entry and moves the amount from
available to held. -/
def Account.dispute (self : Account) (tx : Nat) : Account × TxResult :=
  match lookupMap self.tx_history tx with
  | none => (self, TxResult.err TransactionError.MissingTxId)
  | some input =>
      match input.type with
      | TransactionType.Deposit =>
          if containsMap self.disputes tx then
            (self, TxResult.err TransactionError.DisputeAlreadyExist)
          else
            match input.amount_as_fp with
            | none => (self, TxResult.err TransactionError.InvalidTxForDispute)
            | some amount =>
                ({ self with
                    disputes := insertMap self.disputes tx DisputeState.new
                    available := self.available - amount
                    held := self.held + amount },
                  TxResult.ok)
      | _ => (self, TxResult.err TransactionError.InvalidTxForDispute)

/-- Account::handle_transaction: re-validate (InvalidTx on failure), reject
every kind when locked, then dispatch by kind.  In the source the Deposit and
Withdrawal arms unwrap the amount; that unwrap cannot fail because validity
was just checked, and the unreachable arm is embedded as an InvalidTx error. -/
def Account.handle_transaction (self : Account) (transaction : Input) : Account × TxResult :=
  if !transaction.valid then
    (self, TxResult.err TransactionError.InvalidTx)
  else if self.locked then
    (self, TxResult.err TransactionError.AccountLocked)
  else
    match transaction.type with
    | TransactionType.Deposit =>
        match transaction.amount_as_fp with
        | some amount =>
            let s1 := self.deposit amount
            ({ s1 with tx_history := insertMap s1.tx_history transaction.tx transaction },
              TxResult.ok)
        | none => (self, TxResult.err TransactionError.InvalidTx)
    | TransactionType.Withdrawal =>
        match transaction.amount_as_fp with
        | some amount => self.withdraw amount
        | none => (self, TxResult.err TransactionError.InvalidTx)
    | TransactionType.Dispute => self.dispute transaction.tx
    | TransactionType.Resolve => self.resolve transaction.tx
    | TransactionType.Chargeback => self.chargeback transaction.tx

/-- Folding a list of inputs through Account::handle_transaction, keeping the
state. -/
def Account.runAll (a : Account) (inputs : List Input) : Account :=
  inputs.foldl (fun s i => (s.handle_transaction i).1) a

/-- Process-wide storage (accounts.rs, AccountStorage): client id to account,
plus the global used transaction-id set. -/
structure AccountStorage where
  accounts : List (Nat × Account)
  used_txids : List Nat
deriving DecidableEq

/-- AccountStorage::new. -/
def AccountStorage.new : AccountStorage :=
  { accounts := [], used_txids := [] }

/-- AccountStorage::handle_transaction: reject invalid records with
MalformedInput; for Deposit/Withdrawal reject an already used transaction id
with DuplicateTxId and otherwise record the id before delegating; look up or
lazily create the client's account (entry().or_insert(Account::new())) and
delegate to it, storing the account back and propagating its result. -/
def AccountStorage.handle_transaction (self : AccountStorage) (input : Input) :
    AccountStorage × TxResult :=
  if input.valid then
    match input.type with
    | TransactionType.Deposit | TransactionType.Withdrawal =>
        if containsSet self.used_txids input.tx then
          (self, TxResult.err TransactionError.DuplicateTxId)
        else
          let s1 : AccountStorage :=
            { self with used_txids := insertSet self.used_txids input.tx }
          let account := (lookupMap s1.accounts input.client).getD Account.new
          let r := account.handle_transaction input
          ({ s1 with accounts := insertMap s1.accounts input.client r.1 }, r.2)
    | _ =>
        let account := (lookupMap self.accounts input.client).getD Account.new
        let r := account.handle_transaction input
        ({ self with accounts := insertMap self.accounts input.client r.1 }, r.2)
  else
    (self, TxResult.err TransactionError.MalformedInput)

/-- Account data invariant maintained by the AccountStorage interface: every
record retained in tx_history is a Deposit with an amount present, and every
transaction id with a dispute entry is a key of tx_history. -/
def Account.invariant (a : Account) : Prop :=
  (∀ tx i, lookupMap a.tx_history tx = some i →
      i.type = TransactionType.Deposit ∧ ∃ v, i.amount = some v) ∧
  (∀ tx d, lookupMap a.disputes tx = some d → containsMap a.tx_history tx = true)

/-- Storage invariant: every stored account satisfies the account invariant. -/
def AccountStorage.invariant (s : AccountStorage) : Prop :=
  ∀ c a, lookupMap s.accounts c = some a → a.invariant

/-! Concrete states used by witnesses and counterexamples below. -/

/-- Concrete account exercising C2 where the subtraction drives held negative:
held is 20.0000 while the disputed deposit is 50.0000. -/
def c2Account : Account :=
  { available := 0
    held := 200000
    locked := false
    tx_history := [(1, ⟨TransactionType.Deposit, 1, 1, some 500000⟩)]
    disputes := [(1, DisputeState.Started)] }

/-- Account reached by: deposit 50.0000 (tx 1), deposit 50.0000 (tx 2),
dispute tx 1, dispute tx 2 — so held is 100.0000 and both deposits are under
Started disputes. -/
def c1Account : Account :=
  { available := 0
    held := 1000000
    locked := false
    tx_history := [(1, ⟨TransactionType.Deposit, 1, 1, some 500000⟩),
                   (2, ⟨TransactionType.Deposit, 1, 2, some 500000⟩)]
    disputes := [(1, DisputeState.Started), (2, DisputeState.Started)] }

/-- The same state built through the full AccountStorage interface, showing
the failing input is reachable from the public pipeline, followed by the
chargeback of tx 1. -/
def c1Run : AccountStorage :=
  (((((AccountStorage.new.handle_transaction
        ⟨TransactionType.Deposit, 1, 1, some 500000⟩).1.handle_transaction
        ⟨TransactionType.Deposit, 1, 2, some 500000⟩).1.handle_transaction
        ⟨TransactionType.Dispute, 1, 1, none⟩).1.handle_transaction
        ⟨TransactionType.Dispute, 1, 2, none⟩).1.handle_transaction
        ⟨TransactionType.Chargeback, 1, 1, none⟩).1

/-- A locked but otherwise empty account. -/
def c3Locked : Account :=
  { Account.new with locked := true }

/-- A structurally invalid record: a Deposit with no amount. -/
def c3BadInput : Input :=
  ⟨TransactionType.Deposit, 1, 7, none⟩

/-- A structurally valid deposit record. -/
def c3Dep : Input :=
  ⟨TransactionType.Deposit, 1, 9, some 10000⟩

/-- A chargeback record for tx 4. -/
def c3Cb : Input :=
  ⟨TransactionType.Chargeback, 2, 4, none⟩

/-- An unlocked account with a Started dispute on a retained 50.0000 deposit,
ready for a chargeback. -/
def c3Unlocked : Account :=
  { available := 0
    held := 500000
    locked := false
    tx_history := [(4, ⟨TransactionType.Deposit, 2, 4, some 500000⟩)]
    disputes := [(4, DisputeState.Started)] }

/-- A withdrawal from an empty account: fails with NotEnoughAvailableFunds. -/
def c5Input : Input :=
  ⟨TransactionType.Withdrawal, 1, 1, some 500000⟩

/-- Storage after a successful 55.1234 deposit with transaction id 1234 by
client 1. -/
def c4Storage : AccountStorage :=
  (AccountStorage.new.handle_transaction ⟨TransactionType.Deposit, 1, 1234, some 551234⟩).1

/-- A later deposit by a different client reusing transaction id 1234. -/
def c4Dup : Input :=
  ⟨TransactionType.Deposit, 2, 1234, some 10000⟩

/-- An account holding a 30.0000 deposit in history but only 10.0000
available — disputing drives available negative. -/
def c6Account : Account :=
  { available := 100000
    held := 0
    locked := false
    tx_history := [(3, ⟨TransactionType.Deposit, 1, 3, some 300000⟩)]
    disputes := [] }

/-- The same account after its deposit was disputed: a Started entry exists. -/
def c6Disputed : Account :=
  { available := -200000
    held := 300000
    locked := false
    tx_history := [(3, ⟨TransactionType.Deposit, 1, 3, some 300000⟩)]
    disputes := [(3, DisputeState.Started)] }

/-- An account with 55.1234 available from a retained deposit. -/
def c7Account : Account :=
  { available := 551234
    held := 0
    locked := false
    tx_history := [(1, ⟨TransactionType.Deposit, 1, 1, some 551234⟩)]
    disputes := [] }

/-- A withdrawal of 0.1234, covered by the available balance. -/
def c7Ok : Input :=
  ⟨TransactionType.Withdrawal, 1, 2, some 1234⟩

/-- A withdrawal of 56.1234, exceeding the available balance. -/
def c7Over : Input :=
  ⟨TransactionType.Withdrawal, 1, 3, some 561234⟩

/-- A structurally invalid record: a Withdrawal with a zero amount. -/
def c8Bad : Input :=
  ⟨TransactionType.Withdrawal, 1, 8, some 0⟩

/-- A dispute record for a client with no account yet. -/
def c9In : Input :=
  ⟨TransactionType.Dispute, 9, 99, none⟩

/-- A deposit record used to exercise invariant preservation. -/
def c9Dep : Input :=
  ⟨TransactionType.Deposit, 9, 98, some 25000⟩

/-- A resolve record for a client with no account yet. -/
def c10In : Input :=
  ⟨TransactionType.Resolve, 5, 77, none⟩

/-! Association-list lemmas. -/

theorem lookupMap_insertMap {α : Type} (m : List (Nat × α)) (key key2 : Nat) (v : α) :
    lookupMap (insertMap m key v) key2 = if key = key2 then some v else lookupMap m key2 := by
  induction m with
  | nil => simp [insertMap, lookupMap]
  | cons hd tl ih =>
      obtain ⟨k, w⟩ := hd
      by_cases h1 : k = key
      · subst h1
        simp only [insertMap, if_pos rfl, lookupMap]
        by_cases h2 : k = key2 <;> simp [h2]
      · simp only [insertMap, if_neg h1, lookupMap]
        by_cases h2 : k = key2
        · subst h2
          have hne : ¬ key = k := fun hk => h1 hk.symm
          simp [hne]
        · simp [h2, ih]

theorem containsMap_insertMap {α : Type} (m : List (Nat × α)) (key key2 : Nat) (v : α)
    (h : containsMap m key2 = true) : containsMap (insertMap m key v) key2 = true := by
  unfold containsMap at h ⊢
  rw [lookupMap_insertMap]
  by_cases hk : key = key2 <;> simp [hk, h]

theorem containsSet_insertSet (s : List Nat) (x : Nat) :
    containsSet (insertSet s x) x = true := by
  unfold containsSet insertSet
  by_cases h : x ∈ s <;> simp [h]

/-! Error paths leave the account unchanged, operation by operation. -/

theorem withdraw_err_unchanged (a : Account) (amount : FixedPoint) (e : TransactionError)
    (h : (a.withdraw amount).2 = TxResult.err e) : (a.withdraw amount).1 = a := by
  unfold Account.withdraw at h ⊢
  by_cases hl : a.locked
  · simp [hl]
  · by_cases hg : a.available ≥ amount
    · simp [hl, hg] at h
    · simp [hl, hg]

theorem chargeback_err_unchanged (a : Account) (tx : Nat) (e : TransactionError)
    (h : (a.chargeback tx).2 = TxResult.err e) : (a.chargeback tx).1 = a := by
  unfold Account.chargeback at h ⊢
  cases hh : lookupMap a.tx_history tx with
  | none => simp
  | some input =>
      cases hd : lookupMap a.disputes tx with
      | none => simp
      | some d =>
          rw [hh, hd] at h
          by_cases hs : d = DisputeState.Started
          · simp [hs] at h
          · simp [hs]

theorem resolve_err_unchanged (a : Account) (tx : Nat) (e : TransactionError)
    (h : (a.resolve tx).2 = TxResult.err e) : (a.resolve tx).1 = a := by
  unfold Account.resolve at h ⊢
  cases hh : lookupMap a.tx_history tx with
  | none => simp
  | some input =>
      cases hd : lookupMap a.disputes tx with
      | none => simp
      | some d =>
          rw [hh, hd] at h
          by_cases hs : d = DisputeState.Started
          · cases ha : input.amount_as_fp with
            | some amount => simp [hs, ha] at h
            | none => simp [hs, ha]
          · simp [hs]

theorem dispute_err_unchanged (a : Account) (tx : Nat) (e : TransactionError)
    (h : (a.dispute tx).2 = TxResult.err e) : (a.dispute tx).1 = a := by
  unfold Account.dispute at h ⊢
  cases hh : lookupMap a.tx_history tx with
  | none => simp
  | some input =>
      cases ht : input.type with
      | Deposit =>
          by_cases hc : containsMap a.disputes tx
          · simp [ht, hc]
          · cases ha : input.amount_as_fp with
            | some amount =>
                rw [hh] at h
                simp [ht, hc, ha] at h
            | none => simp [ht, hc, ha]
      | Withdrawal => simp [ht]
      | Dispute => simp [ht]
      | Resolve => simp [ht]
      | Chargeback => simp [ht]

/-! Which fields each operation can touch. -/

theorem withdraw_fields (a : Account) (amount : FixedPoint) :
    (a.withdraw amount).1.tx_history = a.tx_history ∧
    (a.withdraw amount).1.disputes = a.disputes ∧
    (a.withdraw amount).1.locked = a.locked := by
  unfold Account.withdraw
  by_cases hl : a.locked
  · simp [hl]
  · by_cases hg : a.available ≥ amount <;> simp [hl, hg]

theorem dispute_locked_eq (a : Account) (tx : Nat) :
    (a.dispute tx).1.locked = a.locked := by
  unfold Account.dispute
  cases hh : lookupMap a.tx_history tx with
  | none => simp
  | some input =>
      cases ht : input.type with
      | Deposit =>
          by_cases hc : containsMap a.disputes tx
          · simp [ht, hc]
          · cases ha : input.amount_as_fp with
            | some amount => simp [ht, hc, ha]
            | none => simp [ht, hc, ha]
      | Withdrawal => simp [ht]
      | Dispute => simp [ht]
      | Resolve => simp [ht]
      | Chargeback => simp [ht]

theorem resolve_locked_eq (a : Account) (tx : Nat) :
    (a.resolve tx).1.locked = a.locked := by
  unfold Account.resolve
  cases hh : lookupMap a.tx_history tx with
  | none => simp
  | some input =>
      cases hd : lookupMap a.disputes tx with
      | none => simp
      | some d =>
          by_cases hs : d = DisputeState.Started
          · cases ha : input.amount_as_fp with
            | some amount => simp [hs, ha]
            | none => simp [hs, ha]
          · simp [hs]

/-! Claim C2: resolve subtracts from held and credits available unconditionally. -/

/-- C2: for every resolve on a transaction id present in history with a dispute
entry in state Started (and the stored deposit's amount present), the operation
returns Ok and unconditionally sets held -= amount and available += amount,
marking the dispute Resolved — with no side condition ruling out a negative
resulting held, which is surfaced only as a diagnostic. -/
theorem resolve_unconditional_subtraction (a : Account) (tx : Nat) (input : Input)
    (amount : FixedPoint)
    (hh : lookupMap a.tx_history tx = some input)
    (hd : lookupMap a.disputes tx = some DisputeState.Started)
    (ha : input.amount_as_fp = some amount) :
    (a.resolve tx).2 = TxResult.ok ∧
    (a.resolve tx).1 = { a with
      held := a.held - amount
      available := a.available + amount
      disputes := insertMap a.disputes tx DisputeState.Resolved } := by
  unfold Account.resolve
  rw [hh, hd]
  simp [ha]

/-- Witness for C2 at a concrete account whose held is smaller than the
disputed amount: resolve still returns Ok and held becomes negative. -/
theorem resolve_unconditional_subtraction_witness :
    lookupMap c2Account.tx_history 1 = some ⟨TransactionType.Deposit, 1, 1, some 500000⟩ ∧
    lookupMap c2Account.disputes 1 = some DisputeState.Started ∧
    c2Account.held - 500000 < 0 ∧
    (c2Account.resolve 1).2 = TxResult.ok ∧
    (c2Account.resolve 1).1 = { c2Account with
      held := c2Account.held - 500000
      available := c2Account.available + 500000
      disputes := insertMap c2Account.disputes 1 DisputeState.Resolved } :=
  ⟨by decide, by decide, by decide,
    (resolve_unconditional_subtraction c2Account 1 ⟨TransactionType.Deposit, 1, 1, some 500000⟩
      500000 (by decide) (by decide) (by decide)).1,
    (resolve_unconditional_subtraction c2Account 1 ⟨TransactionType.Deposit, 1, 1, some 500000⟩
      500000 (by decide) (by decide) (by decide)).2⟩

/-! Claim C1: the chargeback guard.  The source guards the held subtraction
with `self.held <= amount` (accounts.rs line 223), so the subtraction is
SKIPPED exactly when held strictly exceeds the amount and PERFORMED whenever
held is at most the amount — the reverse of the guard described by the spec
(subtract only if held is at least the amount), and the reverse of the
condition announced by the code's own diagnostic message, which claims the
held amount covers the reimbursement. -/

/-- C1: evaluation at the failing input.  With held = 100.0000 and a Started
dispute on a 50.0000 deposit, held is at least as large as the amount, yet
chargeback leaves held unchanged at 100.0000 (the claim requires 50.0000); the
dispute is still marked Reimbursed, the account locked, and Ok returned.  The
last two conjuncts replay the scenario through AccountStorage. -/
theorem chargeback_skips_subtraction_when_held_covers_amount :
    c1Account.held ≥ 500000 ∧
    (c1Account.chargeback 1).2 = TxResult.ok ∧
    (c1Account.chargeback 1).1.held = 1000000 ∧
    (c1Account.chargeback 1).1.locked = true ∧
    lookupMap (c1Account.chargeback 1).1.disputes 1 = some DisputeState.Reimbursed ∧
    (lookupMap c1Run.accounts 1).map Account.held = some 1000000 ∧
    (lookupMap c1Run.accounts 1).map Account.locked = some true := by
  decide

/-! Account::handle_transaction level facts. -/

theorem handle_err_unchanged (a : Account) (i : Input) (e : TransactionError)
    (h : (a.handle_transaction i).2 = TxResult.err e) : (a.handle_transaction i).1 = a := by
  unfold Account.handle_transaction at h ⊢
  by_cases hv : i.valid = true
  · by_cases hl : a.locked = true
    · simp [hv, hl]
    · rw [Bool.not_eq_true] at hl
      cases ht : i.type with
      | Deposit =>
          cases ha : i.amount_as_fp with
          | some amount => simp [hv, hl, ht, ha] at h
          | none => simp [hv, hl, ht, ha]
      | Withdrawal =>
          cases ha : i.amount_as_fp with
          | some amount =>
              simp only [hv, hl, ht, ha, Bool.not_true, Bool.false_eq_true, if_false,
                if_true] at h ⊢
              exact withdraw_err_unchanged a amount e h
          | none => simp [hv, hl, ht, ha]
      | Dispute =>
          simp only [hv, hl, ht, Bool.not_true, Bool.false_eq_true, if_false, if_true] at h ⊢
          exact dispute_err_unchanged a i.tx e h
      | Resolve =>
          simp only [hv, hl, ht, Bool.not_true, Bool.false_eq_true, if_false, if_true] at h ⊢
          exact resolve_err_unchanged a i.tx e h
      | Chargeback =>
          simp only [hv, hl, ht, Bool.not_true, Bool.false_eq_true, if_false, if_true] at h ⊢
          exact chargeback_err_unchanged a i.tx e h
  · rw [Bool.not_eq_true] at hv
    simp [hv]

theorem locked_state_unchanged (a : Account) (i : Input) (hl : a.locked = true) :
    (a.handle_transaction i).1 = a := by
  unfold Account.handle_transaction
  by_cases hv : i.valid = true
  · simp [hv, hl]
  · rw [Bool.not_eq_true] at hv
    simp [hv]

theorem locked_rejects_valid (a : Account) (i : Input) (hl : a.locked = true)
    (hv : i.valid = true) :
    (a.handle_transaction i).2 = TxResult.err TransactionError.AccountLocked := by
  unfold Account.handle_transaction
  simp [hv, hl]

theorem runAll_locked (a : Account) (l : List Input) (hl : a.locked = true) :
    Account.runAll a l = a := by
  induction l with
  | nil => rfl
  | cons x xs ih =>
      unfold Account.runAll at ih ⊢
      rw [List.foldl_cons, locked_state_unchanged a x hl]
      exact ih

theorem chargeback_ok_of_lock (a : Account) (tx : Nat) (hb : a.locked = false)
    (h : (a.chargeback tx).1.locked = true) : (a.chargeback tx).2 = TxResult.ok := by
  cases r : (a.chargeback tx).2 with
  | ok => rfl
  | err e =>
      have hu := chargeback_err_unchanged a tx e r
      rw [hu, hb] at h
      exact absurd h (by simp)

theorem lock_only_by_chargeback (b : Account) (j : Input) (hb : b.locked = false)
    (h : (b.handle_transaction j).1.locked = true) :
    j.type = TransactionType.Chargeback ∧ (b.handle_transaction j).2 = TxResult.ok := by
  unfold Account.handle_transaction at h ⊢
  by_cases hv : j.valid = true
  · cases ht : j.type with
    | Deposit =>
        cases ha : j.amount_as_fp with
        | some amount => simp [hv, hb, ht, ha, Account.deposit] at h
        | none => simp [hv, hb, ht, ha] at h
    | Withdrawal =>
        cases ha : j.amount_as_fp with
        | some amount =>
            simp [hv, hb, ht, ha] at h
            rw [(withdraw_fields b amount).2.2, hb] at h
            exact absurd h (by simp)
        | none => simp [hv, hb, ht, ha] at h
    | Dispute =>
        simp [hv, hb, ht] at h
        rw [dispute_locked_eq b j.tx, hb] at h
        exact absurd h (by simp)
    | Resolve =>
        simp [hv, hb, ht] at h
        rw [resolve_locked_eq b j.tx, hb] at h
        exact absurd h (by simp)
    | Chargeback =>
        simp only [hv, hb, ht, Bool.not_true, Bool.false_eq_true, if_false, if_true] at h
        refine ⟨rfl, ?_⟩
        simp only [hv, hb, ht, Bool.not_true, Bool.false_eq_true, if_false, if_true]
        exact chargeback_ok_of_lock b j.tx hb h
  · rw [Bool.not_eq_true] at hv
    simp [hv, hb] at h

/-! Claim C3: the lock is permanent and rejects everything. -/

/-- C3 counterexample: on a locked account, a structurally invalid record (a
Deposit with no amount) is rejected with InvalidTx, not AccountLocked — the
validity re-check at the top of Account::handle_transaction precedes the lock
check, so not literally every call on a locked account fails with
AccountLocked. -/
theorem locked_invalid_input_rejected_as_invalidtx :
    (c3Locked.handle_transaction c3BadInput).2 = TxResult.err TransactionError.InvalidTx ∧
    (c3Locked.handle_transaction c3BadInput).2 ≠ TxResult.err TransactionError.AccountLocked := by
  decide

/-- C3 (amended): once locked is true the account state (hence the flag) never
changes again: every structurally valid call of any kind — including further
disputes and chargebacks — fails with AccountLocked, a structurally invalid
call fails with InvalidTx, in both cases mutating nothing, and any sequence of
further calls leaves the account as it was; moreover, on an unlocked account
the flag can only become true through a Chargeback transaction that returns
Ok. -/
theorem locked_account_permanent_rejection (a : Account) (i : Input) (l : List Input)
    (b : Account) (j : Input)
    (hl : a.locked = true) (hb : b.locked = false) :
    (a.handle_transaction i).1 = a ∧
    (i.valid = true →
      (a.handle_transaction i).2 = TxResult.err TransactionError.AccountLocked) ∧
    (i.valid = false →
      (a.handle_transaction i).2 = TxResult.err TransactionError.InvalidTx) ∧
    Account.runAll a l = a ∧
    ((b.handle_transaction j).1.locked = true →
      j.type = TransactionType.Chargeback ∧ (b.handle_transaction j).2 = TxResult.ok) := by
  refine ⟨locked_state_unchanged a i hl, fun hv => locked_rejects_valid a i hl hv, ?_,
    runAll_locked a l hl, fun h => lock_only_by_chargeback b j hb h⟩
  intro hv
  unfold Account.handle_transaction
  simp [hv]

/-- Witness for C3 at concrete states: the locked empty account rejects a
valid deposit with AccountLocked and is unchanged by a whole sequence of
records, and the unlocked account with a Started dispute becomes locked
exactly through an Ok chargeback. -/
theorem locked_account_permanent_rejection_witness :
    c3Locked.locked = true ∧ c3Dep.valid = true ∧ c3Unlocked.locked = false ∧
    (c3Locked.handle_transaction c3Dep).2 = TxResult.err TransactionError.AccountLocked ∧
    (c3Locked.handle_transaction c3Dep).1 = c3Locked ∧
    Account.runAll c3Locked [c3Dep, c3Cb] = c3Locked ∧
    c3Cb.type = TransactionType.Chargeback ∧
    (c3Unlocked.handle_transaction c3Cb).2 = TxResult.ok :=
  ⟨by decide, by decide, by decide,
    (locked_account_permanent_rejection c3Locked c3Dep [c3Dep, c3Cb] c3Unlocked c3Cb
      (by decide) (by decide)).2.1 (by decide),
    (locked_account_permanent_rejection c3Locked c3Dep [c3Dep, c3Cb] c3Unlocked c3Cb
      (by decide) (by decide)).1,
    (locked_account_permanent_rejection c3Locked c3Dep [c3Dep, c3Cb] c3Unlocked c3Cb
      (by decide) (by decide)).2.2.2.1,
    ((locked_account_permanent_rejection c3Locked c3Dep [c3Dep, c3Cb] c3Unlocked c3Cb
      (by decide) (by decide)).2.2.2.2 (by decide)).1,
    ((locked_account_permanent_rejection c3Locked c3Dep [c3Dep, c3Cb] c3Unlocked c3Cb
      (by decide) (by decide)).2.2.2.2 (by decide)).2⟩

/-! Claim C5: per-account operations are atomic with respect to failure. -/

/-- C5: whenever Account::handle_transaction returns an error, none of
available, held, locked, tx_history or disputes has been mutated. -/
theorem account_error_implies_unchanged (a : Account) (i : Input) (e : TransactionError)
    (h : (a.handle_transaction i).2 = TxResult.err e) :
    (a.handle_transaction i).1.available = a.available ∧
    (a.handle_transaction i).1.held = a.held ∧
    (a.handle_transaction i).1.locked = a.locked ∧
    (a.handle_transaction i).1.tx_history = a.tx_history ∧
    (a.handle_transaction i).1.disputes = a.disputes := by
  rw [handle_err_unchanged a i e h]
  exact ⟨rfl, rfl, rfl, rfl, rfl⟩

/-- Witness for C5: withdrawing 50.0000 from the fresh empty account fails
with NotEnoughAvailableFunds and mutates nothing. -/
theorem account_error_implies_unchanged_witness :
    (Account.new.handle_transaction c5Input).2 =
      TxResult.err TransactionError.NotEnoughAvailableFunds ∧
    (Account.new.handle_transaction c5Input).1.available = Account.new.available ∧
    (Account.new.handle_transaction c5Input).1.held = Account.new.held ∧
    (Account.new.handle_transaction c5Input).1.locked = Account.new.locked ∧
    (Account.new.handle_transaction c5Input).1.tx_history = Account.new.tx_history ∧
    (Account.new.handle_transaction c5Input).1.disputes = Account.new.disputes :=
  ⟨by decide,
    (account_error_implies_unchanged Account.new c5Input
      TransactionError.NotEnoughAvailableFunds (by decide)).1,
    (account_error_implies_unchanged Account.new c5Input
      TransactionError.NotEnoughAvailableFunds (by decide)).2.1,
    (account_error_implies_unchanged Account.new c5Input
      TransactionError.NotEnoughAvailableFunds (by decide)).2.2.1,
    (account_error_implies_unchanged Account.new c5Input
      TransactionError.NotEnoughAvailableFunds (by decide)).2.2.2.1,
    (account_error_implies_unchanged Account.new c5Input
      TransactionError.NotEnoughAvailableFunds (by decide)).2.2.2.2⟩

/-! Claim C4: the global duplicate transaction-id guard. -/

/-- C4: for a structurally valid Deposit or Withdrawal, if the transaction id
is already in the process-wide used set the call fails with DuplicateTxId and
the storage — accounts included — is completely untouched (no account
mutation, no account creation, regardless of the client); if the id is fresh,
it is in the used set after the call no matter how the delegated
account-level handling turned out. -/
theorem duplicate_txid_globally_consumed (s : AccountStorage) (i : Input)
    (hk : i.type = TransactionType.Deposit ∨ i.type = TransactionType.Withdrawal)
    (hv : i.valid = true) :
    (containsSet s.used_txids i.tx = true →
      (s.handle_transaction i).2 = TxResult.err TransactionError.DuplicateTxId ∧
      (s.handle_transaction i).1 = s) ∧
    (containsSet s.used_txids i.tx = false →
      containsSet (s.handle_transaction i).1.used_txids i.tx = true) := by
  unfold AccountStorage.handle_transaction
  constructor
  · intro hc
    rcases hk with ht | ht <;> simp [hv, ht, hc]
  · intro hc
    rcases hk with ht | ht <;> simp [hv, ht, hc, containsSet_insertSet]

/-- Witness for C4: after client 1 deposits with tx id 1234, a deposit by
client 2 with the same id fails with DuplicateTxId leaving the storage
unchanged; and a fresh id is recorded as used even though the very same
record, played on the empty storage, succeeds. -/
theorem duplicate_txid_globally_consumed_witness :
    c4Dup.valid = true ∧
    containsSet c4Storage.used_txids 1234 = true ∧
    (c4Storage.handle_transaction c4Dup).2 = TxResult.err TransactionError.DuplicateTxId ∧
    (c4Storage.handle_transaction c4Dup).1 = c4Storage ∧
    containsSet (AccountStorage.new.handle_transaction c4Dup).1.used_txids 1234 = true :=
  ⟨by decide, by decide,
    ((duplicate_txid_globally_consumed c4Storage c4Dup (Or.inl (by decide))
      (by decide)).1 (by decide)).1,
    ((duplicate_txid_globally_consumed c4Storage c4Dup (Or.inl (by decide))
      (by decide)).1 (by decide)).2,
    (duplicate_txid_globally_consumed AccountStorage.new c4Dup (Or.inl (by decide))
      (by decide)).2 (by decide)⟩

/-! Claim C6: the dispute operation. -/

/-- C6: for a dispute on a transaction id stored in history as a Deposit with
its amount present, if no dispute entry exists the operation moves the amount
from available to held, inserts a Started entry and returns Ok with no
side condition on available going negative; if a dispute entry already exists
(whatever its state) it fails with DisputeAlreadyExist; and on any account a
dispute on an id absent from history fails with MissingTxId. -/
theorem dispute_moves_funds_and_guards (a : Account) (tx : Nat) (input : Input)
    (amount : FixedPoint) (b : Account) (tx2 : Nat)
    (hh : lookupMap a.tx_history tx = some input)
    (ht : input.type = TransactionType.Deposit)
    (ha : input.amount_as_fp = some amount)
    (hb : lookupMap b.tx_history tx2 = none) :
    (containsMap a.disputes tx = false →
      (a.dispute tx).2 = TxResult.ok ∧
      (a.dispute tx).1 = { a with
        disputes := insertMap a.disputes tx DisputeState.Started
        available := a.available - amount
        held := a.held + amount }) ∧
    (containsMap a.disputes tx = true →
      (a.dispute tx).2 = TxResult.err TransactionError.DisputeAlreadyExist ∧
      (a.dispute tx).1 = a) ∧
    (b.dispute tx2).2 = TxResult.err TransactionError.MissingTxId := by
  refine ⟨?_, ?_, ?_⟩
  · intro hc
    unfold Account.dispute
    rw [hh]
    simp [ht, hc, ha, DisputeState.new]
  · intro hc
    unfold Account.dispute
    rw [hh]
    simp [ht, hc]
  · unfold Account.dispute
    rw [hb]

/-- Witness for C6: disputing the retained 30.0000 deposit with only 10.0000
available succeeds, drives available to -20.0000 and holds 30.0000; disputing
it again (on the post-dispute account) fails with DisputeAlreadyExist; a
dispute on the empty account fails with MissingTxId. -/
theorem dispute_moves_funds_and_guards_witness :
    containsMap c6Account.disputes 3 = false ∧
    (c6Account.dispute 3).2 = TxResult.ok ∧
    (c6Account.dispute 3).1 = c6Disputed ∧
    containsMap c6Disputed.disputes 3 = true ∧
    (c6Disputed.dispute 3).2 = TxResult.err TransactionError.DisputeAlreadyExist ∧
    (Account.new.dispute 3).2 = TxResult.err TransactionError.MissingTxId :=
  ⟨by decide,
    ((dispute_moves_funds_and_guards c6Account 3 ⟨TransactionType.Deposit, 1, 3, some 300000⟩
      300000 Account.new 3 (by decide) (by decide) (by decide) (by decide)).1 (by decide)).1,
    by decide,
    by decide,
    ((dispute_moves_funds_and_guards c6Disputed 3 ⟨TransactionType.Deposit, 1, 3, some 300000⟩
      300000 Account.new 3 (by decide) (by decide) (by decide) (by decide)).2.1 (by decide)).1,
    (dispute_moves_funds_and_guards c6Disputed 3 ⟨TransactionType.Deposit, 1, 3, some 300000⟩
      300000 Account.new 3 (by decide) (by decide) (by decide) (by decide)).2.2⟩

/-! Claim C7: withdrawal semantics. -/

/-- C7: on an unlocked account a structurally valid withdrawal succeeds
exactly when available covers the amount, subtracting it from available and
touching nothing else; otherwise it fails with NotEnoughAvailableFunds and
mutates nothing.  In both cases tx_history is untouched, so when the
withdrawal's transaction id was not in history, a later dispute naming it
fails with MissingTxId. -/
theorem withdrawal_iff_sufficient_available (a : Account) (i : Input) (amount : FixedPoint)
    (hl : a.locked = false) (ht : i.type = TransactionType.Withdrawal)
    (hv : i.valid = true) (ha : i.amount_as_fp = some amount) :
    (a.available ≥ amount →
      (a.handle_transaction i).2 = TxResult.ok ∧
      (a.handle_transaction i).1 = { a with available := a.available - amount }) ∧
    (¬ a.available ≥ amount →
      (a.handle_transaction i).2 = TxResult.err TransactionError.NotEnoughAvailableFunds ∧
      (a.handle_transaction i).1 = a) ∧
    (a.handle_transaction i).1.tx_history = a.tx_history ∧
    (lookupMap a.tx_history i.tx = none →
      ((a.handle_transaction i).1.dispute i.tx).2 = TxResult.err TransactionError.MissingTxId) := by
  have hred : a.handle_transaction i = a.withdraw amount := by
    unfold Account.handle_transaction
    simp [hv, hl, ht, ha]
  rw [hred]
  refine ⟨?_, ?_, (withdraw_fields a amount).1, ?_⟩
  · intro hg
    unfold Account.withdraw
    simp [hl, hg]
  · intro hg
    unfold Account.withdraw
    simp [hl, hg]
  · intro hn
    unfold Account.dispute
    rw [(withdraw_fields a amount).1, hn]

/-- Witness for C7: from 55.1234 available, withdrawing 0.1234 succeeds and
leaves 55.0000; withdrawing 56.1234 fails with NotEnoughAvailableFunds and
changes nothing; and a dispute naming the successful withdrawal's id fails
with MissingTxId. -/
theorem withdrawal_iff_sufficient_available_witness :
    c7Account.locked = false ∧ c7Ok.valid = true ∧ c7Over.valid = true ∧
    c7Account.available ≥ 1234 ∧ ¬ c7Account.available ≥ 561234 ∧
    (c7Account.handle_transaction c7Ok).2 = TxResult.ok ∧
    (c7Account.handle_transaction c7Ok).1.available = 550000 ∧
    (c7Account.handle_transaction c7Over).2 =
      TxResult.err TransactionError.NotEnoughAvailableFunds ∧
    (c7Account.handle_transaction c7Over).1 = c7Account ∧
    ((c7Account.handle_transaction c7Ok).1.dispute 2).2 =
      TxResult.err TransactionError.MissingTxId :=
  ⟨by decide, by decide, by decide, by decide, by decide,
    ((withdrawal_iff_sufficient_available c7Account c7Ok 1234 (by decide) (by decide)
      (by decide) (by decide)).1 (by decide)).1,
    by decide,
    ((withdrawal_iff_sufficient_available c7Account c7Over 561234 (by decide) (by decide)
      (by decide) (by decide)).2.1 (by decide)).1,
    ((withdrawal_iff_sufficient_available c7Account c7Over 561234 (by decide) (by decide)
      (by decide) (by decide)).2.1 (by decide)).2,
    (withdrawal_iff_sufficient_available c7Account c7Ok 1234 (by decide) (by decide)
      (by decide) (by decide)).2.2.2 (by decide)⟩

/-! Claim C8: the validator and MalformedInput. -/

theorem if_gt_eq_true (v : FixedPoint) : (if v > 0 then true else false) = true ↔ v > 0 := by
  by_cases hv : v > 0 <;> simp [hv]

/-- C8: a record passes the validator exactly when it is a Deposit/Withdrawal
with an amount present and strictly positive, or a Dispute/Resolve/Chargeback
with the amount absent; and every record the validator rejects makes
AccountStorage::handle_transaction return MalformedInput with the whole
storage untouched. -/
theorem validator_accepts_iff_and_rejects_malformed (i : Input) (s : AccountStorage) :
    (i.valid = true ↔
      ((i.type = TransactionType.Deposit ∨ i.type = TransactionType.Withdrawal) ∧
        ∃ v, i.amount = some v ∧ v > 0) ∨
      ((i.type = TransactionType.Dispute ∨ i.type = TransactionType.Resolve ∨
          i.type = TransactionType.Chargeback) ∧ i.amount = none)) ∧
    (i.valid = false →
      (s.handle_transaction i).2 = TxResult.err TransactionError.MalformedInput ∧
      (s.handle_transaction i).1 = s) := by
  constructor
  · unfold Input.valid
    cases ht : i.type <;> cases ha : i.amount <;> simp [ht, ha, if_gt_eq_true]
  · intro hv
    unfold AccountStorage.handle_transaction
    simp [hv]

/-- Witness for C8: a Withdrawal with a zero amount is invalid, and the
storage rejects it with MalformedInput, unchanged. -/
theorem validator_accepts_iff_and_rejects_malformed_witness :
    c8Bad.valid = false ∧
    (AccountStorage.new.handle_transaction c8Bad).2 =
      TxResult.err TransactionError.MalformedInput ∧
    (AccountStorage.new.handle_transaction c8Bad).1 = AccountStorage.new :=
  ⟨by decide,
    ((validator_accepts_iff_and_rejects_malformed c8Bad AccountStorage.new).2 (by decide)).1,
    ((validator_accepts_iff_and_rejects_malformed c8Bad AccountStorage.new).2 (by decide)).2⟩

/-! Invariant machinery for C9. -/

theorem account_new_invariant : Account.new.invariant := by
  constructor
  · intro tx i h
    simp [Account.new, lookupMap] at h
  · intro tx d h
    simp [Account.new, lookupMap] at h

theorem storage_new_invariant : AccountStorage.new.invariant := by
  intro c a h
  simp [AccountStorage.new, lookupMap] at h

theorem invariant_of_fields_eq (a b : Account) (hinv : a.invariant)
    (hh : b.tx_history = a.tx_history) (hd : b.disputes = a.disputes) : b.invariant := by
  obtain ⟨h1, h2⟩ := hinv
  constructor
  · intro t i h
    rw [hh] at h
    exact h1 t i h
  · intro t d h
    rw [hd] at h
    rw [hh]
    exact h2 t d h

theorem invariant_update_dispute (a b : Account) (tx : Nat) (d : DisputeState)
    (hinv : a.invariant)
    (hh : b.tx_history = a.tx_history)
    (hd : b.disputes = insertMap a.disputes tx d)
    (hk : containsMap a.tx_history tx = true) :
    b.invariant := by
  obtain ⟨h1, h2⟩ := hinv
  constructor
  · intro t i h
    rw [hh] at h
    exact h1 t i h
  · intro t dd h
    rw [hd, lookupMap_insertMap] at h
    rw [hh]
    by_cases he : tx = t
    · subst he
      exact hk
    · rw [if_neg he] at h
      exact h2 t dd h

theorem invariant_insert_history (a b : Account) (tx : Nat) (i : Input)
    (hinv : a.invariant)
    (hh : b.tx_history = insertMap a.tx_history tx i)
    (hd : b.disputes = a.disputes)
    (hi : i.type = TransactionType.Deposit) (hv : ∃ v, i.amount = some v) :
    b.invariant := by
  obtain ⟨h1, h2⟩ := hinv
  constructor
  · intro t j h
    rw [hh, lookupMap_insertMap] at h
    by_cases he : tx = t
    · rw [if_pos he] at h
      cases h
      exact ⟨hi, hv⟩
    · rw [if_neg he] at h
      exact h1 t j h
  · intro t dd h
    rw [hd] at h
    rw [hh]
    unfold containsMap
    rw [lookupMap_insertMap]
    by_cases he : tx = t
    · simp [he]
    · rw [if_neg he]
      exact h2 t dd h

theorem dispute_invariant (a : Account) (tx : Nat) (hinv : a.invariant) :
    (a.dispute tx).1.invariant := by
  unfold Account.dispute
  cases hh : lookupMap a.tx_history tx with
  | none => simpa using hinv
  | some input =>
      cases ht : input.type with
      | Deposit =>
          by_cases hc : containsMap a.disputes tx
          · simpa [ht, hc] using hinv
          · cases ha : input.amount_as_fp with
            | none => simpa [ht, hc, ha] using hinv
            | some amount =>
                have hk : containsMap a.tx_history tx = true := by
                  unfold containsMap
                  rw [hh]
                  rfl
                simp [ht, hc, ha]
                exact invariant_update_dispute a _ tx DisputeState.new hinv rfl rfl hk
      | Withdrawal => simpa [ht] using hinv
      | Dispute => simpa [ht] using hinv
      | Resolve => simpa [ht] using hinv
      | Chargeback => simpa [ht] using hinv

theorem resolve_invariant (a : Account) (tx : Nat) (hinv : a.invariant) :
    (a.resolve tx).1.invariant := by
  unfold Account.resolve
  cases hh : lookupMap a.tx_history tx with
  | none => simpa using hinv
  | some input =>
      cases hd : lookupMap a.disputes tx with
      | none => simpa using hinv
      | some d =>
          by_cases hs : d = DisputeState.Started
          · cases ha : input.amount_as_fp with
            | none => simpa [hs, ha] using hinv
            | some amount =>
                have hk : containsMap a.tx_history tx = true := by
                  unfold containsMap
                  rw [hh]
                  rfl
                simp [hs, ha]
                exact invariant_update_dispute a _ tx DisputeState.Resolved hinv rfl rfl hk
          · simpa [hs] using hinv

theorem chargeback_invariant (a : Account) (tx : Nat) (hinv : a.invariant) :
    (a.chargeback tx).1.invariant := by
  unfold Account.chargeback
  cases hh : lookupMap a.tx_history tx with
  | none => simpa using hinv
  | some input =>
      cases hd : lookupMap a.disputes tx with
      | none => simpa using hinv
      | some d =>
          by_cases hs : d = DisputeState.Started
          · have hk : containsMap a.tx_history tx = true := by
              unfold containsMap
              rw [hh]
              rfl
            cases ha : input.amount_as_fp with
            | none =>
                simp [hs, ha, Account.lock]
                exact invariant_update_dispute a _ tx DisputeState.Reimbursed hinv rfl rfl hk
            | some amount =>
                by_cases hheld : a.held ≤ amount
                · simp [hs, ha, hheld, Account.lock]
                  exact invariant_update_dispute a _ tx DisputeState.Reimbursed hinv rfl rfl hk
                · simp [hs, ha, hheld, Account.lock]
                  exact invariant_update_dispute a _ tx DisputeState.Reimbursed hinv rfl rfl hk
          · simpa [hs] using hinv

theorem handle_invariant (a : Account) (i : Input) (hinv : a.invariant) :
    (a.handle_transaction i).1.invariant := by
  unfold Account.handle_transaction
  by_cases hv : i.valid = true
  · by_cases hl : a.locked = true
    · simpa [hv, hl] using hinv
    · rw [Bool.not_eq_true] at hl
      cases ht : i.type with
      | Deposit =>
          cases ha : i.amount_as_fp with
          | some amount =>
              simp [hv, hl, ht, ha, Account.deposit]
              exact invariant_insert_history a _ i.tx i hinv rfl rfl ht ⟨amount, ha⟩
          | none => simpa [hv, hl, ht, ha] using hinv
      | Withdrawal =>
          cases ha : i.amount_as_fp with
          | some amount =>
              simp only [hv, hl, ht, ha, Bool.not_true, Bool.false_eq_true, if_false, if_true]
              exact invariant_of_fields_eq a _ hinv (withdraw_fields a amount).1
                (withdraw_fields a amount).2.1
          | none => simpa [hv, hl, ht, ha] using hinv
      | Dispute =>
          simp only [hv, hl, ht, Bool.not_true, Bool.false_eq_true, if_false, if_true]
          exact dispute_invariant a i.tx hinv
      | Resolve =>
          simp only [hv, hl, ht, Bool.not_true, Bool.false_eq_true, if_false, if_true]
          exact resolve_invariant a i.tx hinv
      | Chargeback =>
          simp only [hv, hl, ht, Bool.not_true, Bool.false_eq_true, if_false, if_true]
          exact chargeback_invariant a i.tx hinv
  · rw [Bool.not_eq_true] at hv
    simpa [hv] using hinv

theorem storage_invariant_used_eq (s s2 : AccountStorage) (hs : s.invariant)
    (h : s2.accounts = s.accounts) : s2.invariant := by
  intro c a hh
  rw [h] at hh
  exact hs c a hh

theorem storage_insert_invariant (s s2 : AccountStorage) (i : Input)
    (hs : s.invariant)
    (hacc : s2.accounts = insertMap s.accounts i.client
      (((lookupMap s.accounts i.client).getD Account.new).handle_transaction i).1) :
    s2.invariant := by
  intro c a h
  rw [hacc, lookupMap_insertMap] at h
  by_cases he : i.client = c
  · rw [if_pos he] at h
    cases h
    apply handle_invariant
    cases hl : lookupMap s.accounts i.client with
    | none => simpa [hl] using account_new_invariant
    | some acc => simpa [hl] using hs i.client acc hl
  · rw [if_neg he] at h
    exact hs c a h

theorem storage_handle_invariant (s : AccountStorage) (i : Input) (hs : s.invariant) :
    (s.handle_transaction i).1.invariant := by
  unfold AccountStorage.handle_transaction
  by_cases hv : i.valid = true
  · cases ht : i.type with
    | Deposit =>
        by_cases hc : containsSet s.used_txids i.tx
        · simpa [hv, ht, hc] using hs
        · simp [hv, ht, hc]
          exact storage_insert_invariant { s with used_txids := insertSet s.used_txids i.tx }
            _ i (storage_invariant_used_eq s _ hs rfl) rfl
    | Withdrawal =>
        by_cases hc : containsSet s.used_txids i.tx
        · simpa [hv, ht, hc] using hs
        · simp [hv, ht, hc]
          exact storage_insert_invariant { s with used_txids := insertSet s.used_txids i.tx }
            _ i (storage_invariant_used_eq s _ hs rfl) rfl
    | Dispute =>
        simp [hv, ht]
        exact storage_insert_invariant s _ i hs rfl
    | Resolve =>
        simp [hv, ht]
        exact storage_insert_invariant s _ i hs rfl
    | Chargeback =>
        simp [hv, ht]
        exact storage_insert_invariant s _ i hs rfl
  · rw [Bool.not_eq_true] at hv
    simpa [hv] using hs

/-! The defensive error branches that the invariant makes unreachable. -/

theorem valid_amount_of_kind (i : Input) (hv : i.valid = true)
    (hk : i.type = TransactionType.Deposit ∨ i.type = TransactionType.Withdrawal) :
    ∃ v, i.amount = some v ∧ v > 0 := by
  unfold Input.valid at hv
  rcases hk with ht | ht <;> rw [ht] at hv <;>
    (cases ha : i.amount with
     | none => rw [ha] at hv; simp at hv
     | some v =>
        rw [ha] at hv
        refine ⟨v, rfl, ?_⟩
        by_cases hp : v > 0
        · exact hp
        · simp [hp] at hv)

theorem withdraw_no_dead_errors (a : Account) (amount : FixedPoint) :
    (a.withdraw amount).2 ≠ TxResult.err TransactionError.InvalidTxForDispute ∧
    (a.withdraw amount).2 ≠ TxResult.err TransactionError.InvalidTx := by
  unfold Account.withdraw
  by_cases hl : a.locked = true
  · simp [hl]
  · rw [Bool.not_eq_true] at hl
    by_cases hg : a.available ≥ amount <;> simp [hl, hg]

theorem dispute_no_dead_errors (a : Account) (tx : Nat) (hinv : a.invariant) :
    (a.dispute tx).2 ≠ TxResult.err TransactionError.InvalidTxForDispute ∧
    (a.dispute tx).2 ≠ TxResult.err TransactionError.InvalidTx := by
  unfold Account.dispute
  cases hh : lookupMap a.tx_history tx with
  | none => simp
  | some input =>
      obtain ⟨hdep, v, hva⟩ := hinv.1 tx input hh
      have ha : input.amount_as_fp = some v := hva
      by_cases hc : containsMap a.disputes tx <;> simp [hdep, hc, ha]

theorem resolve_no_dead_errors (a : Account) (tx : Nat) (hinv : a.invariant) :
    (a.resolve tx).2 ≠ TxResult.err TransactionError.InvalidTxForDispute ∧
    (a.resolve tx).2 ≠ TxResult.err TransactionError.InvalidTx := by
  unfold Account.resolve
  cases hh : lookupMap a.tx_history tx with
  | none => simp
  | some input =>
      cases hd : lookupMap a.disputes tx with
      | none => simp
      | some d =>
          by_cases hs : d = DisputeState.Started
          · obtain ⟨hdep, v, hva⟩ := hinv.1 tx input hh
            have ha : input.amount_as_fp = some v := hva
            simp [hs, ha]
          · simp [hs]

theorem chargeback_no_dead_errors (a : Account) (tx : Nat) :
    (a.chargeback tx).2 ≠ TxResult.err TransactionError.InvalidTxForDispute ∧
    (a.chargeback tx).2 ≠ TxResult.err TransactionError.InvalidTx := by
  unfold Account.chargeback
  cases hh : lookupMap a.tx_history tx with
  | none => simp
  | some input =>
      cases hd : lookupMap a.disputes tx with
      | none => simp
      | some d =>
          by_cases hs : d = DisputeState.Started
          · cases ha : input.amount_as_fp with
            | none => simp [hs, ha]
            | some amount => by_cases hheld : a.held ≤ amount <;> simp [hs, ha, hheld]
          · simp [hs]

theorem handle_no_dead_errors (a : Account) (i : Input) (hinv : a.invariant)
    (hv : i.valid = true) :
    (a.handle_transaction i).2 ≠ TxResult.err TransactionError.InvalidTxForDispute ∧
    (a.handle_transaction i).2 ≠ TxResult.err TransactionError.InvalidTx := by
  unfold Account.handle_transaction
  by_cases hl : a.locked = true
  · simp [hv, hl]
  · rw [Bool.not_eq_true] at hl
    cases ht : i.type with
    | Deposit =>
        obtain ⟨v, hva, hpos⟩ := valid_amount_of_kind i hv (Or.inl ht)
        have ha : i.amount_as_fp = some v := hva
        simp [hv, hl, ht, ha]
    | Withdrawal =>
        obtain ⟨v, hva, hpos⟩ := valid_amount_of_kind i hv (Or.inr ht)
        have ha : i.amount_as_fp = some v := hva
        simp only [hv, hl, ht, ha, Bool.not_true, Bool.false_eq_true, if_false, if_true]
        exact withdraw_no_dead_errors a v
    | Dispute =>
        simp only [hv, hl, ht, Bool.not_true, Bool.false_eq_true, if_false, if_true]
        exact dispute_no_dead_errors a i.tx hinv
    | Resolve =>
        simp only [hv, hl, ht, Bool.not_true, Bool.false_eq_true, if_false, if_true]
        exact resolve_no_dead_errors a i.tx hinv
    | Chargeback =>
        simp only [hv, hl, ht, Bool.not_true, Bool.false_eq_true, if_false, if_true]
        exact chargeback_no_dead_errors a i.tx

theorem storage_no_dead_errors (s : AccountStorage) (i : Input) (hs : s.invariant) :
    (s.handle_transaction i).2 ≠ TxResult.err TransactionError.InvalidTxForDispute ∧
    (s.handle_transaction i).2 ≠ TxResult.err TransactionError.InvalidTx := by
  unfold AccountStorage.handle_transaction
  by_cases hv : i.valid = true
  · have hainv : ((lookupMap s.accounts i.client).getD Account.new).invariant := by
      cases hl : lookupMap s.accounts i.client with
      | none => simpa using account_new_invariant
      | some acc => simpa using hs i.client acc hl
    cases ht : i.type with
    | Deposit =>
        by_cases hc : containsSet s.used_txids i.tx
        · simp [hv, ht, hc]
        · simp only [hv, ht, hc, Bool.false_eq_true, if_false, if_true]
          exact handle_no_dead_errors _ i hainv hv
    | Withdrawal =>
        by_cases hc : containsSet s.used_txids i.tx
        · simp [hv, ht, hc]
        · simp only [hv, ht, hc, Bool.false_eq_true, if_false, if_true]
          exact handle_no_dead_errors _ i hainv hv
    | Dispute =>
        simp only [hv, ht, if_true]
        exact handle_no_dead_errors _ i hainv hv
    | Resolve =>
        simp only [hv, ht, if_true]
        exact handle_no_dead_errors _ i hainv hv
    | Chargeback =>
        simp only [hv, ht, if_true]
        exact handle_no_dead_errors _ i hainv hv
  · rw [Bool.not_eq_true] at hv
    simp [hv]

/-! Claim C9: the history/dispute invariant and the dead defensive branches. -/

/-- C9: the invariant — every record in history is a Deposit with an amount
present, and every disputed id is a key of history — holds of the fresh
account and is preserved by every Account::handle_transaction call and by
every AccountStorage::handle_transaction call; consequently, through the
AccountStorage interface neither the InvalidTxForDispute branch (non-deposit
history entry) nor resolve's missing-amount InvalidTx branch can ever
produce the returned error. -/
theorem history_invariant_and_dead_branches (s : AccountStorage) (i : Input)
    (a : Account) (j : Input) (hs : s.invariant) (ha : a.invariant) :
    (a.handle_transaction j).1.invariant ∧
    (s.handle_transaction i).1.invariant ∧
    (s.handle_transaction i).2 ≠ TxResult.err TransactionError.InvalidTxForDispute ∧
    (s.handle_transaction i).2 ≠ TxResult.err TransactionError.InvalidTx :=
  ⟨handle_invariant a j ha, storage_handle_invariant s i hs,
    (storage_no_dead_errors s i hs).1, (storage_no_dead_errors s i hs).2⟩

/-- Witness for C9 from the empty storage and the fresh account, driven by a
dispute record for an unknown client and a deposit. -/
theorem history_invariant_and_dead_branches_witness :
    Account.new.invariant ∧ AccountStorage.new.invariant ∧
    (Account.new.handle_transaction c9Dep).1.invariant ∧
    (AccountStorage.new.handle_transaction c9In).1.invariant ∧
    (AccountStorage.new.handle_transaction c9In).2 ≠
      TxResult.err TransactionError.InvalidTxForDispute ∧
    (AccountStorage.new.handle_transaction c9In).2 ≠
      TxResult.err TransactionError.InvalidTx :=
  ⟨account_new_invariant, storage_new_invariant,
    (history_invariant_and_dead_branches AccountStorage.new c9In Account.new c9Dep
      storage_new_invariant account_new_invariant).1,
    (history_invariant_and_dead_branches AccountStorage.new c9In Account.new c9Dep
      storage_new_invariant account_new_invariant).2.1,
    (history_invariant_and_dead_branches AccountStorage.new c9In Account.new c9Dep
      storage_new_invariant account_new_invariant).2.2.1,
    (history_invariant_and_dead_branches AccountStorage.new c9In Account.new c9Dep
      storage_new_invariant account_new_invariant).2.2.2⟩

/-! Claim C10: dispute-like records for unknown clients leave an empty
account behind. -/

/-- C10: a structurally valid Dispute/Resolve/Chargeback for a client with no
account makes AccountStorage::handle_transaction create the account
(entry().or_insert(Account::new())), the delegated operation fails with
MissingTxId on the empty history, and the freshly created empty account —
zero available, zero held, unlocked, empty history and disputes — stays in
storage. -/
theorem dispute_like_creates_empty_account (s : AccountStorage) (i : Input)
    (hk : i.type = TransactionType.Dispute ∨ i.type = TransactionType.Resolve ∨
      i.type = TransactionType.Chargeback)
    (hv : i.valid = true)
    (hc : lookupMap s.accounts i.client = none) :
    (s.handle_transaction i).2 = TxResult.err TransactionError.MissingTxId ∧
    lookupMap (s.handle_transaction i).1.accounts i.client = some Account.new ∧
    Account.new.available = 0 ∧ Account.new.held = 0 ∧ Account.new.locked = false ∧
    Account.new.tx_history = [] ∧ Account.new.disputes = [] := by
  have hr : Account.new.handle_transaction i =
      (Account.new, TxResult.err TransactionError.MissingTxId) := by
    unfold Account.handle_transaction
    rcases hk with ht | ht | ht <;>
      simp [hv, ht, Account.new, Account.dispute, Account.resolve, Account.chargeback,
        lookupMap]
  refine ⟨?_, ?_, rfl, rfl, rfl, rfl, rfl⟩ <;>
    (unfold AccountStorage.handle_transaction
     rcases hk with ht | ht | ht <;> simp [hv, ht, hc, hr, lookupMap_insertMap])

/-- Witness for C10: a resolve for client 5 on the empty storage. -/
theorem dispute_like_creates_empty_account_witness :
    c10In.valid = true ∧
    lookupMap AccountStorage.new.accounts 5 = none ∧
    (AccountStorage.new.handle_transaction c10In).2 =
      TxResult.err TransactionError.MissingTxId ∧
    lookupMap (AccountStorage.new.handle_transaction c10In).1.accounts 5 =
      some Account.new :=
  ⟨by decide, by decide,
    (dispute_like_creates_empty_account AccountStorage.new c10In
      (Or.inr (Or.inl (by decide))) (by decide) (by decide)).1,
    (dispute_like_creates_empty_account AccountStorage.new c10In
      (Or.inr (Or.inl (by decide))) (by decide) (by decide)).2.1⟩

end Payeng
